import Mathlib

/-
Verification of scripts/determine_build_matrix.py.

The script decides which boards a CI pipeline must build from a list of
changed file paths and a board catalog on disk.  This file embeds the
script shallowly: Python values are `PyObj`, Python exceptions are `PyErr`,
fallible code returns `Except PyErr`, the filesystem seen by the catalog
scan is explicit data (`FileSystem`), and `pathlib.PurePosixPath` segment
semantics (the platform the tool runs on is POSIX) are `pathParts`.
-/

namespace BuildMatrix

/-- Python runtime values, as produced by yaml.safe_load and as assembled
into the script's result dictionaries.  Mapping keys are restricted to
strings, which covers every value the script builds or inspects. -/
inductive PyObj where
  | pyNone : PyObj
  | bool : Bool → PyObj
  | int : Int → PyObj
  | str : String → PyObj
  | list : List PyObj → PyObj
  | dict : List (String × PyObj) → PyObj

/-- Python exceptions that the embedded code can raise. -/
inductive PyErr where
  | indexError : PyErr
  | nameError : String → PyErr
  | keyError : String → PyErr
  | typeError : PyErr
  | attributeError : PyErr
deriving Repr, DecidableEq

/-- Whether the second character list begins with the first one. -/
def leadMatch : List Char → List Char → Bool
  | [], _ => true
  | _ :: _, [] => false
  | a :: as, b :: bs => a == b && leadMatch as bs

/-- Characterwise split on a separator character, mirroring Python's
str.split with a one-character separator (empty pieces preserved). -/
def splitChar (sep : Char) : List Char → List (List Char)
  | [] => [[]]
  | c :: rest =>
    if c == sep then [] :: splitChar sep rest
    else
      match splitChar sep rest with
      | [] => [[c]]
      | seg :: segs => (c :: seg) :: segs

/-- Python str.endswith: the string ends with the given suffix. -/
def endsWithStr (f : String) (suffix : String) : Bool :=
  leadMatch suffix.data.reverse f.data.reverse

/-- Segment list of `pathlib.PurePosixPath(f).parts`: split on the slash,
drop empty components and single dots, keep a root part for absolute paths
(with the POSIX double-slash special case).  Note that the empty string and
"." have an empty segment list, so `parts[0]` raises IndexError on them. -/
def pathParts (f : String) : List String :=
  let comps := ((splitChar '/' f.data).filter
      (fun seg => !seg.isEmpty && !(seg == ['.']))).map (fun seg => String.mk seg)
  match f.data with
  | '/' :: '/' :: '/' :: _ => "/" :: comps
  | '/' :: '/' :: _ => "//" :: comps
  | '/' :: _ => "/" :: comps
  | _ => comps

/-- Lines 87-90: `any(Path(f).parts[0] == "versions" and f.endswith(".version")
for f in changed_files)`.  The generator is evaluated left to right with
short-circuiting; `Path(f).parts[0]` raises IndexError when the segment
list is empty ("" or "."). -/
def version_changed : List String → Except PyErr Bool
  | [] => .ok false
  | f :: rest =>
    match pathParts f with
    | [] => .error .indexError
    | p :: _ =>
      if p == "versions" && endsWithStr f ".version" then .ok true
      else version_changed rest

/-- Python truthiness of a value, as used by `if spec and ...`. -/
def truthy : PyObj → Bool
  | .pyNone => false
  | .bool b => b
  | .int n => n != 0
  | .str s => s != ""
  | .list xs => !xs.isEmpty
  | .dict kvs => !kvs.isEmpty

/-- First binding of a key in a Python dict (dict lookup). -/
def lookupStr (kvs : List (String × PyObj)) (k : String) : Option PyObj :=
  match kvs.find? (fun kv => kv.fst == k) with
  | some kv => some kv.snd
  | none => none

/-- Whether a Python value equals the string k (used by `in` on lists). -/
def pyStrEq (k : String) : PyObj → Bool
  | .str s => k == s
  | _ => false

/-- Occurrence of a character sequence inside another, helper for the
substring test below. -/
def containsSeq : List Char → List Char → Bool
  | [], needle => leadMatch needle []
  | h :: t, needle => leadMatch needle (h :: t) || containsSeq t needle

/-- Substring test on strings, as Python's `in` performs on str. -/
def strContainsSub (hay needle : String) : Bool :=
  containsSeq hay.data needle.data

/-- Python `k in v` for a string k: key membership on dicts, element
equality on lists, substring on strings, TypeError otherwise. -/
def pyContains (k : String) : PyObj → Except PyErr Bool
  | .dict kvs => .ok (kvs.any (fun kv => kv.fst == k))
  | .list xs => .ok (xs.any (pyStrEq k))
  | .str s => .ok (strContainsSub s k)
  | _ => .error .typeError

/-- Python `v[k]` for a string key: dict lookup (KeyError when absent),
TypeError on every non-dict value. -/
def pyGetItem (v : PyObj) (k : String) : Except PyErr PyObj :=
  match v with
  | .dict kvs =>
    match lookupStr kvs k with
    | some x => .ok x
    | none => .error (.keyError k)
  | _ => .error .typeError

/-- Python `v.get(k, default)`: only dicts expose `.get`; every other
value raises AttributeError. -/
def pyGetDefault (v : PyObj) (k : String) (dflt : PyObj) : Except PyErr PyObj :=
  match v with
  | .dict kvs => .ok ((lookupStr kvs k).getD dflt)
  | _ => .error .attributeError

/-- Lines 47-50 of the catalog scan:
`arch = "unknown"; if spec and "board" in spec and "cpu" in spec["board"]:
arch = spec["board"]["cpu"].get("arch", "unknown")`.
The argument is `None` (here `Option.none`) exactly when read_board_spec
caught an exception while opening or parsing the file. -/
def extract_arch (spec : Option PyObj) : Except PyErr PyObj :=
  match spec with
  | none => .ok (.str "unknown")
  | some y =>
    if truthy y then
      match pyContains "board" y with
      | .error e => .error e
      | .ok false => .ok (.str "unknown")
      | .ok true =>
        match pyGetItem y "board" with
        | .error e => .error e
        | .ok bv =>
          match pyContains "cpu" bv with
          | .error e => .error e
          | .ok false => .ok (.str "unknown")
          | .ok true =>
            match pyGetItem bv "cpu" with
            | .error e => .error e
            | .ok cv => pyGetDefault cv "arch" (.str "unknown")
    else .ok (.str "unknown")

/-- One specification file discovered by `boards_dir.rglob("spec.yaml")`:
its parent directory relative to `boards/` (the board identifier) and the
outcome of read_board_spec (`none` when opening or parsing raised, in
which case the script printed a warning to stderr and returned None). -/
structure SpecFile where
  relPath : String
  parsed : Option PyObj

/-- The filesystem state the catalog scan observes: whether `<base>/boards`
exists, and the spec.yaml files found beneath it in rglob order. -/
structure FileSystem where
  boardsDirExists : Bool
  specFiles : List SpecFile

/-- A catalog entry, the dict `{"board": board_path, "arch": arch}` built
at lines 52-55.  The arch is whatever value `.get("arch", "unknown")`
produced, not necessarily a string. -/
structure BoardEntry where
  board : String
  arch : PyObj

/-- The loop body of find_all_boards over the discovered spec files: each
file contributes one BoardEntry; an exception in the arch extraction
propagates and aborts the scan. -/
def scanBoards : List SpecFile → Except PyErr (List BoardEntry)
  | [] => .ok []
  | sf :: rest =>
    match extract_arch sf.parsed with
    | .error e => .error e
    | .ok a =>
      match scanBoards rest with
      | .error e => .error e
      | .ok bs => .ok ({ board := sf.relPath, arch := a } :: bs)

/-- Lines 28-55: find_all_boards returns the empty catalog when
`<base>/boards` does not exist, else one entry per discovered spec.yaml. -/
def find_all_boards (fs : FileSystem) : Except PyErr (List BoardEntry) :=
  if fs.boardsDirExists then scanBoards fs.specFiles else .ok []

/-- Board identifiers of the spec files whose read or parse failed: for
each of these read_board_spec printed one warning line to stderr. -/
def scan_warnings (fs : FileSystem) : List String :=
  if fs.boardsDirExists then
    (fs.specFiles.filter (fun sf => sf.parsed.isNone)).map SpecFile.relPath
  else []

/-- Rendering of a catalog entry back to the Python dict stored in the
result under "boards". -/
def entryToPy (e : BoardEntry) : PyObj :=
  .dict [("board", .str e.board), ("arch", e.arch)]

/-- Names bound at module level in determine_build_matrix.py.  The
fragment at lines 56-78 is not a definition (it is a syntactically invalid
truncated remnant of another function), so `extract_affected_boards`,
called at line 98, is bound nowhere. -/
def moduleDefs : List String :=
  ["read_board_spec", "find_all_boards", "determine_build_matrix", "main"]

/-- Lines 79-106: determine_build_matrix.  The result is the Python dict
literal of lines 102-106 with keys "boards", "reason", "total" in that
order (there is no "include" key).  On the board-specific branch the call
`extract_affected_boards(changed_files)` at line 98 raises NameError,
because that name is absent from `moduleDefs`. -/
def determine_build_matrix (changed_files : List String) (fs : FileSystem) :
    Except PyErr (List (String × PyObj)) :=
  match version_changed changed_files with
  | .error e => .error e
  | .ok true =>
    match find_all_boards fs with
    | .error e => .error e
    | .ok boards =>
      .ok [("boards", .list (boards.map entryToPy)),
           ("reason", .str "version update (testing all boards)"),
           ("total", .int boards.length)]
  | .ok false => .error (.nameError "extract_affected_boards")

/-- Line 146 of main's github-output branch:
`include_json = json.dumps(result["include"])` — the subscript the
presenter performs on the decision dict before any line is printed. -/
def pipeline_include_lookup (result : List (String × PyObj)) : Except PyErr PyObj :=
  match lookupStr result "include" with
  | some v => .ok v
  | none => .error (.keyError "include")

/-- The global-trigger condition in the words of the specification: the
path's first path segment is "versions" and the path's filename (its last
path segment, as pathlib's name attribute reads it) ends in ".version".
Stated from the spec for comparison with `version_changed`. -/
def global_trigger_claim (changed_files : List String) : Bool :=
  changed_files.any (fun f =>
    ((pathParts f).head? == some "versions") &&
    endsWithStr ((pathParts f).getLastD "") ".version")

/-- The per-path condition actually tested by lines 87-90 on a path whose
segment list is nonempty. -/
def trigPred (f : String) : Bool :=
  ((pathParts f).head? == some "versions") && endsWithStr f ".version"

/-- A filesystem with one board `a/x` whose spec parses and declares
architecture "arm". -/
def fsA : FileSystem :=
  ⟨true, [⟨"a/x", some (.dict [("board", .dict [("cpu", .dict [("arch", .str "arm")])])])⟩]⟩

/-- A filesystem with two boards, both with well-formed specs. -/
def fsC : FileSystem :=
  ⟨true, [⟨"a/x", some (.dict [("board", .dict [("cpu", .dict [("arch", .str "arm")])])])⟩,
          ⟨"a/y", some (.dict [("board", .dict [("cpu", .dict [("arch", .str "x86")])])])⟩]⟩

/-- A base directory with no boards/ subdirectory. -/
def fsNone : FileSystem := ⟨false, []⟩

/-- A filesystem where the first spec file failed to parse and the second
is well-formed. -/
def fsW : FileSystem :=
  ⟨true, [⟨"v/bad", none⟩,
          ⟨"v/good", some (.dict [("board", .dict [("cpu", .dict [("arch", .str "riscv")])])])⟩]⟩

theorem extract_affected_boards_not_defined :
    moduleDefs.contains "extract_affected_boards" = false := rfl

theorem version_changed_eq_any (l : List String)
    (h : ∀ f ∈ l, pathParts f ≠ []) :
    version_changed l = .ok (l.any trigPred) := by
  induction l with
  | nil => rfl
  | cons f rest ih =>
    have hf : pathParts f ≠ [] := h f (List.mem_cons_self f rest)
    cases hp : pathParts f with
    | nil => exact absurd hp hf
    | cons p ps =>
      have hrest : ∀ g ∈ rest, pathParts g ≠ [] :=
        fun g hg => h g (List.mem_cons_of_mem f hg)
      have htp : trigPred f = (p == "versions" && endsWithStr f ".version") := by
        unfold trigPred
        rw [hp]
        rfl
      cases hcond : (p == "versions" && endsWithStr f ".version") with
      | true =>
        have h1 : version_changed (f :: rest) = .ok true := by
          unfold version_changed
          rw [hp]
          simp [hcond]
        have h2 : (f :: rest).any trigPred = true := by
          rw [List.any_cons, htp, hcond]
          rfl
        rw [h1, h2]
      | false =>
        have h1 : version_changed (f :: rest) = version_changed rest := by
          simp only [version_changed, hp]
          simp [hcond]
        have h2 : (f :: rest).any trigPred = rest.any trigPred := by
          rw [List.any_cons, htp, hcond]
          rfl
        rw [h1, h2, ih hrest]

theorem scanBoards_parse_failure (l : List SpecFile) (cat : List BoardEntry)
    (hok : scanBoards l = .ok cat) :
    ∀ sf ∈ l, sf.parsed = none →
      ({ board := sf.relPath, arch := .str "unknown" } : BoardEntry) ∈ cat := by
  induction l generalizing cat with
  | nil =>
    intro sf hsf _
    exact absurd hsf (List.not_mem_nil sf)
  | cons s rest ih =>
    intro sf hsf hfail
    cases he : extract_arch s.parsed with
    | error e =>
      rw [scanBoards, he] at hok
      exact Except.noConfusion hok
    | ok a =>
      cases hr : scanBoards rest with
      | error e =>
        rw [scanBoards, he, hr] at hok
        exact Except.noConfusion hok
      | ok bs =>
        rw [scanBoards, he, hr] at hok
        cases hok
        rcases List.mem_cons.mp hsf with hh | hh
        · subst hh
          rw [hfail] at he
          have ha : a = .str "unknown" := by
            have h2 : Except.ok (ε := PyErr) (PyObj.str "unknown") = .ok a := he
            cases h2
            rfl
          subst ha
          exact List.mem_cons_self _ _
        · exact List.mem_cons_of_mem _ (ih bs hr sf hh hfail)

/-- Claim C1 (counterexample): at the version-file change
["versions/core.version"] against a one-board catalog, the computed
decision dict has no "include" key at all, while the full catalog the
claim says must appear there is the nonempty list for board a/x. -/
theorem C1_counterexample :
    (determine_build_matrix ["versions/core.version"] fsA).map
      (fun d => lookupStr d "include") = .ok none ∧
    find_all_boards fsA = .ok [⟨"a/x", .str "arm"⟩] :=
  ⟨rfl, rfl⟩

/-- Claim C1 (amended): precedence law on the field the code actually
produces.  For every changed-file list whose paths all have at least one
path segment and in which at least one path has first segment "versions"
and ends in ".version", and for every catalog the reader returns, the
decision holds the full catalog under the key "boards" — never a union
with a board-specific subset — with reason "version update (testing all
boards)" and total the catalog size. -/
theorem C1_boards_full_catalog (changed : List String) (fs : FileSystem)
    (cat : List BoardEntry)
    (hseg : ∀ f ∈ changed, pathParts f ≠ [])
    (htrig : ∃ f ∈ changed, trigPred f = true)
    (hcat : find_all_boards fs = .ok cat) :
    determine_build_matrix changed fs =
      .ok [("boards", .list (cat.map entryToPy)),
           ("reason", .str "version update (testing all boards)"),
           ("total", .int cat.length)] := by
  have h1 := version_changed_eq_any changed hseg
  have h2 : changed.any trigPred = true := List.any_eq_true.mpr htrig
  simp only [determine_build_matrix, h1, h2, hcat]

/-- Claim C1 witness: the amended theorem applied to a mixed change list
holding unrelated, version and board paths, against the one-board
filesystem. -/
theorem C1_boards_full_catalog_witness :
    determine_build_matrix ["README.md", "versions/core.version", "boards/a/x/f.c"] fsA =
      .ok [("boards", .list [.dict [("board", .str "a/x"), ("arch", .str "arm")]]),
           ("reason", .str "version update (testing all boards)"),
           ("total", .int 1)] :=
  C1_boards_full_catalog _ _ [⟨"a/x", .str "arm"⟩] (by decide) (by decide) rfl

/-- Claim C2: the board-specific branch cannot run.  At the failing input
["boards/a/x/file.c"] the else branch of determine_build_matrix calls
extract_affected_boards, a name the module never defines, so it raises
NameError instead of producing the sorted catalog intersection the claim
describes. -/
theorem C2_board_branch_raises :
    determine_build_matrix ["boards/a/x/file.c"] fsA =
      .error (.nameError "extract_affected_boards") := rfl

/-- Claim C3: the structural invariant cannot hold because the decision
has no include field.  At a version-file change against a one-board
catalog the full result dict is exactly the keys boards, reason and total
— there is no "include" entry for boards to be a projection of, and the
"boards" list holds entry dicts rather than the board paths promised by
the function's own docstring. -/
theorem C3_no_include_key :
    determine_build_matrix ["versions/a.version"] fsA =
      .ok [("boards", .list [.dict [("board", .str "a/x"), ("arch", .str "arm")]]),
           ("reason", .str "version update (testing all boards)"),
           ("total", .int 1)] := rfl

/-- Claim C4 (counterexample): the changed list ["."] contains no
versions path, yet determine_build_matrix raises IndexError, not the
NameError the claim asserts: pathlib gives "." an empty parts tuple, so
Path(f).parts[0] fails before the board-specific branch is reached. -/
theorem C4_counterexample :
    determine_build_matrix ["."] fsA = .error .indexError ∧
    PyErr.indexError ≠ .nameError "extract_affected_boards" :=
  ⟨rfl, by decide⟩

/-- Claim C4 (amended): for every changed-file list in which every path
has at least one path segment and none satisfies the version trigger,
determine_build_matrix raises NameError for the undefined
extract_affected_boards; a path with no segments (such as "" or ".")
instead raises IndexError inside the version check. -/
theorem C4_name_error (changed : List String) (fs : FileSystem)
    (hseg : ∀ f ∈ changed, pathParts f ≠ [])
    (hnotrig : ∀ f ∈ changed, trigPred f = false) :
    determine_build_matrix changed fs =
      .error (.nameError "extract_affected_boards") := by
  have h1 := version_changed_eq_any changed hseg
  have h2 : changed.any trigPred = false := by
    cases hb : changed.any trigPred with
    | false => rfl
    | true =>
      obtain ⟨x, hx, hpx⟩ := List.any_eq_true.mp hb
      rw [hnotrig x hx] at hpx
      exact absurd hpx Bool.false_ne_true
  simp only [determine_build_matrix, h1, h2]

/-- Claim C4 witness: the amended theorem at a concrete board-only change
list. -/
theorem C4_name_error_witness :
    determine_build_matrix ["boards/a/x/file.c", "README.md"] fsA =
      .error (.nameError "extract_affected_boards") :=
  C4_name_error _ _ (by decide) (by decide)

/-- Claim C5 (counterexample): for the path "versions/x.version/" the
pathlib filename is "x.version", which ends in ".version", so the claim's
characterization sets the trigger; but the code tests the raw string with
f.endswith(".version"), which the trailing slash defeats, so
global_trigger stays false. -/
theorem C5_counterexample :
    version_changed ["versions/x.version/"] = .ok false ∧
    global_trigger_claim ["versions/x.version/"] = true :=
  ⟨rfl, rfl⟩

/-- Claim C5 (amended): provided every changed path has at least one path
segment, global_trigger is true iff at least one changed path's first
path segment equals "versions" and the raw path string itself ends with
".version" — the raw string, not the pathlib filename: a trailing
separator defeats the suffix test, and a path with no segments raises
IndexError instead of being classified. -/
theorem C5_trigger_iff (changed : List String)
    (hseg : ∀ f ∈ changed, pathParts f ≠ []) :
    version_changed changed =
      .ok (changed.any (fun f =>
        ((pathParts f).head? == some "versions") && endsWithStr f ".version")) :=
  version_changed_eq_any changed hseg

/-- Claim C5 witness: the amended characterization at a concrete list
with one unrelated and one version path. -/
theorem C5_trigger_iff_witness :
    version_changed ["README.md", "versions/core.version"] =
      .ok ((["README.md", "versions/core.version"]).any (fun f =>
        ((pathParts f).head? == some "versions") && endsWithStr f ".version")) :=
  C5_trigger_iff _ (by decide)

/-- Claim C6: the pipeline presenter cannot emit the four claimed lines.
Its first step evaluates result["include"] (line 146), and on the dict
determine_build_matrix actually returns that subscript raises KeyError;
the branch's source is moreover truncated mid f-string and contains no
reason= emission at all. -/
theorem C6_pipeline_include_keyerror :
    (determine_build_matrix ["versions/core.version"] fsC).bind
      pipeline_include_lookup = .error (.keyError "include") := rfl

/-- Claim C7 (counterexample): a spec file that parses successfully to a
mapping whose board.cpu level is the string "x86" — not a mapping — makes
the scan raise AttributeError (a str has no .get), so the board is not
listed with arch "unknown" and the exception escapes the reader, contrary
to the claim. -/
theorem C7_counterexample :
    find_all_boards ⟨true, [⟨"b/y", some (.dict [("board", .dict [("cpu", .str "x86")])])⟩]⟩ =
      .error .attributeError := rfl

/-- Claim C7 (amended): the parse-failure case behaves as claimed — when
reading or parsing a discovered spec file raised, a warning was logged
and the board is still listed with architecture exactly "unknown" while
the scan continues; the correction is that a successfully parsed spec
whose intermediate levels are not mappings can instead raise and abort
the scan, so the conclusion is stated for scans that complete. -/
theorem C7_parse_failure_unknown (fs : FileSystem) (sf : SpecFile)
    (cat : List BoardEntry)
    (hdir : fs.boardsDirExists = true)
    (hmem : sf ∈ fs.specFiles)
    (hfail : sf.parsed = none)
    (hok : find_all_boards fs = .ok cat) :
    ({ board := sf.relPath, arch := .str "unknown" } : BoardEntry) ∈ cat ∧
    sf.relPath ∈ scan_warnings fs := by
  have hscan : scanBoards fs.specFiles = .ok cat := by
    unfold find_all_boards at hok
    rw [hdir] at hok
    simpa using hok
  constructor
  · exact scanBoards_parse_failure _ _ hscan sf hmem hfail
  · unfold scan_warnings
    rw [hdir]
    simp only [if_true]
    exact List.mem_map_of_mem _ (List.mem_filter.mpr ⟨hmem, by simp [hfail]⟩)

/-- Claim C7 witness: the amended theorem at a two-file scan whose first
spec failed to parse and whose second parses to architecture riscv. -/
theorem C7_parse_failure_unknown_witness :
    ({ board := "v/bad", arch := .str "unknown" } : BoardEntry) ∈
      [({ board := "v/bad", arch := .str "unknown" } : BoardEntry),
       { board := "v/good", arch := .str "riscv" }] ∧
    "v/bad" ∈ scan_warnings fsW :=
  C7_parse_failure_unknown fsW ⟨"v/bad", none⟩ _ rfl (List.mem_cons_self _ _) rfl rfl

/-- Claim C8 (counterexample): with no boards/ directory and a version
trigger the decision is computed without error, but it carries no
"include" field at all — an absent key rather than an empty include, and
the presenter's fetch of it would raise KeyError. -/
theorem C8_counterexample :
    (determine_build_matrix ["versions/core.version"] fsNone).map
      (fun d => lookupStr d "include") = .ok none ∧
    (determine_build_matrix ["versions/core.version"] fsNone).bind
      pipeline_include_lookup = .error (.keyError "include") :=
  ⟨rfl, rfl⟩

/-- Claim C8 (amended): a missing boards/ subdirectory yields the empty
catalog without raising, and a global trigger against it yields the
non-error decision with empty boards list, total 0 and the version-update
reason — the decision's board list being its "boards" entry, as it has no
include field. -/
theorem C8_missing_dir (fs : FileSystem) (changed : List String)
    (hdir : fs.boardsDirExists = false)
    (htrig : version_changed changed = .ok true) :
    find_all_boards fs = .ok [] ∧
    determine_build_matrix changed fs =
      .ok [("boards", .list []),
           ("reason", .str "version update (testing all boards)"),
           ("total", .int 0)] := by
  have hcat : find_all_boards fs = .ok [] := by
    unfold find_all_boards
    rw [hdir]
    simp
  refine ⟨hcat, ?_⟩
  simp only [determine_build_matrix, htrig, hcat]
  rfl

/-- Claim C8 witness: the amended theorem at the empty base directory and
a single version-file change. -/
theorem C8_missing_dir_witness :
    find_all_boards fsNone = .ok [] ∧
    determine_build_matrix ["versions/core.version"] fsNone =
      .ok [("boards", .list []),
           ("reason", .str "version update (testing all boards)"),
           ("total", .int 0)] :=
  C8_missing_dir fsNone ["versions/core.version"] rfl rfl

/-- Claim C9 (counterexample): classification is not separator-agnostic —
the backslash-separated spelling of the same version path does not set
the trigger while the slash-separated one does. -/
theorem C9_counterexample :
    version_changed ["versions\\core.version"] = .ok false ∧
    version_changed ["versions/core.version"] = .ok true :=
  ⟨rfl, rfl⟩

/-- Claim C9 (amended): paths are interpreted with the host platform's
(POSIX) pathlib rules, under which only "/" separates segments: a
backslash-separated path is one single segment, so it is not recognized
as a versions path, unlike its slash-separated equivalent. -/
theorem C9_posix_segments :
    pathParts "versions\\core.version" = ["versions\\core.version"] ∧
    pathParts "versions/core.version" = ["versions", "core.version"] ∧
    version_changed ["versions\\core.version"] = .ok false :=
  ⟨rfl, rfl, rfl⟩

/-- Claim C10 (counterexample): the dedup-law scenario itself — the same
board changed twice — does not produce a one-entry include; the
board-specific branch raises NameError for the undefined
extract_affected_boards, so no decision exists at all. -/
theorem C10_counterexample :
    determine_build_matrix ["boards/a/x/file.c", "boards/a/x/other.c"] fsA =
      .error (.nameError "extract_affected_boards") := rfl

/-- Claim C10 (amended): on changed-file lists whose paths all have at
least one segment, the outcome of determine_build_matrix — the
full-catalog decision on a version trigger, the NameError otherwise —
depends only on which paths are present: replacing the list by any other
list with the same members (any permutation or duplication) leaves the
outcome unchanged. -/
theorem C10_membership_invariance (l l' : List String) (fs : FileSystem)
    (hseg : ∀ f ∈ l, pathParts f ≠ [])
    (h1 : ∀ f ∈ l, f ∈ l')
    (h2 : ∀ f ∈ l', f ∈ l) :
    determine_build_matrix l fs = determine_build_matrix l' fs := by
  have hseg2 : ∀ f ∈ l', pathParts f ≠ [] := fun f hf => hseg f (h2 f hf)
  have e1 := version_changed_eq_any l hseg
  have e2 := version_changed_eq_any l' hseg2
  have hiff : (l.any trigPred = true) ↔ (l'.any trigPred = true) := by
    simp only [List.any_eq_true]
    constructor
    · rintro ⟨x, hx, hpx⟩
      exact ⟨x, h1 x hx, hpx⟩
    · rintro ⟨x, hx, hpx⟩
      exact ⟨x, h2 x hx, hpx⟩
  have hany : l.any trigPred = l'.any trigPred := by
    cases hb : l.any trigPred with
    | true => exact (hiff.mp hb).symm
    | false =>
      cases hb2 : l'.any trigPred with
      | false => rfl
      | true =>
        have hcontra := hiff.mpr hb2
        rw [hb] at hcontra
        exact absurd hcontra Bool.false_ne_true
  simp only [determine_build_matrix, e1, e2, hany]

/-- Claim C10 witness: the amended invariance applied to a version-trigger
list and its duplication. -/
theorem C10_membership_invariance_witness :
    determine_build_matrix ["versions/v.version"] fsA =
      determine_build_matrix ["versions/v.version", "versions/v.version"] fsA :=
  C10_membership_invariance _ _ _ (by decide) (by decide) (by decide)

end BuildMatrix
